import Mathlib

/-!
Verification of the PDF summarizer single-page application controller
(src/src/App.js). The controller owns five pieces of React state
(pdfFile, extractedText, summary, loading, error) and two operations:
`handleFileChange` (file intake plus text extraction) and `summarizeText`
(the summarization request). Both are embedded below as pure state
transitions; the external collaborators (the pdf.js extractor and the
Gemini HTTP endpoint) are modelled as explicit outcome parameters.
-/

namespace PdfSummarizer

/-- A user-selected file: display name and declared media type, as read from
the browser file object (`file.name`, `file.type`). -/
structure File where
  name : String
  type : String
deriving Repr, DecidableEq

/-- The five `useState` slots of the `App` component (lines 7-11 of App.js). -/
structure AppState where
  pdfFile : Option File
  extractedText : String
  summary : String
  loading : Bool
  error : String
deriving Repr, DecidableEq

/-- Outcome of the extraction pipeline inside `reader.onload`:
either `window.pdfjsLib` is undefined, or loading / page / text retrieval
threw (caught at line 53), or it succeeded, yielding for each page index
1..numPages the ordered list of fragment strings `item.str`. -/
inductive ExtractOutcome where
  | libMissing : ExtractOutcome
  | failure : ExtractOutcome
  | success : List (List String) → ExtractOutcome
deriving Repr, DecidableEq

/-- One element of `candidates[i].content.parts`: its `text` field. -/
structure Part where
  text : String
deriving Repr, DecidableEq

/-- `candidates[i].content`; the `parts` field may be absent (the code
checks its truthiness at line 109). -/
structure Content where
  parts : Option (List Part)
deriving Repr, DecidableEq

/-- One element of `result.candidates`; its `content` field may be absent
(truthiness checked at line 109). -/
structure Candidate where
  content : Option Content
deriving Repr, DecidableEq

/-- `result.error`; its `message` field may be absent.  An empty string is
falsy in JavaScript, which the truthiness helpers below account for. -/
structure ApiErrorObj where
  message : Option String
deriving Repr, DecidableEq

/-- `result.promptFeedback`; its `blockReason` field may be absent. -/
structure PromptFeedback where
  blockReason : Option String
deriving Repr, DecidableEq

/-- The decoded JSON body of the Gemini response, with the fields the code
inspects; each may be absent. -/
structure GeminiResult where
  candidates : Option (List Candidate)
  error : Option ApiErrorObj
  promptFeedback : Option PromptFeedback
deriving Repr, DecidableEq

/-- Outcome of the `fetch` round-trip: either a response arrived
(`response.ok` flag plus decoded JSON body), or the call itself threw or
rejected (caught at line 127; this also covers a failing `response.json()`). -/
inductive FetchOutcome where
  | response : Bool → GeminiResult → FetchOutcome
  | thrown : FetchOutcome
deriving Repr, DecidableEq

/-- Fixed message set when a non-PDF file is selected (line 64). -/
def invalidPdfMsg : String := "Please upload a valid PDF file."

/-- Fixed message when `window.pdfjsLib` is undefined (line 35). -/
def pdfjsMissingMsg : String :=
  "PDF.js library not loaded. Please ensure it is linked correctly in index.html and try again."

/-- Fixed message when extraction throws (line 55). -/
def extractFailMsg : String :=
  "Failed to extract text from PDF. Please ensure it\x27s a valid PDF and not password protected."

/-- Fixed message when there is no extracted text to summarize (line 74). -/
def noTextMsg : String := "No text extracted to summarize. Please upload a PDF first."

/-- Fixed message when the extracted text exceeds 50,000 characters (line 81). -/
def tooLongMsg : String :=
  "The extracted text is very long (over 50,000 characters). Please try a smaller PDF or a more concise document, or consider using a different summarization approach for very large texts."

/-- Fixed message when the AI returns an empty candidate list (line 120). -/
def noCandidatesMsg : String :=
  "The AI did not provide any summary candidates. The content might be too sensitive or inappropriate for the model."

/-- Fixed message for an unexpected response shape (line 123). -/
def unexpectedShapeMsg : String :=
  "Failed to get a summary from the AI. The response structure was unexpected."

/-- Fixed message when the fetch throws or rejects (line 129). -/
def networkErrMsg : String :=
  "An error occurred while summarizing the text. Please check your internet connection or try again later. (Network Error/CORS issue)"

/-- The non-PDF (or no-file) branch of `handleFileChange` (lines 60-65):
drop the handle, clear text and summary, set the fixed error.  `loading` is
not touched there. -/
def rejectFile (s : AppState) : AppState :=
  { s with pdfFile := none, extractedText := "", summary := "", error := invalidPdfMsg }

/-- The accepting prefix of `handleFileChange` (lines 24-28): store the
handle, clear text, summary and error, set loading, before the reader and
extraction run. -/
def acceptPdf (s : AppState) (f : File) : AppState :=
  { s with pdfFile := some f, extractedText := "", summary := "", error := "", loading := true }

/-- Per-page text: `textContent.items.map(item => item.str).join(' ')`
(line 49). -/
def joinPage (frags : List String) : String := String.intercalate " " frags

/-- The extraction loop of lines 44-50: starting from the empty string,
append each page text followed by a newline, in increasing page order. -/
def fullTextOfPages (pages : List (List String)) : String :=
  pages.foldl (fun acc frags => acc ++ joinPage frags ++ "\n") ""

/-- The body of `reader.onload` (lines 31-58), applied to the state left by
`acceptPdf`: report a missing library, report an extraction failure, or
store the extracted text; every branch ends with `setLoading(false)`. -/
def applyExtraction (s : AppState) (eo : ExtractOutcome) : AppState :=
  match eo with
  | ExtractOutcome.libMissing => { s with error := pdfjsMissingMsg, loading := false }
  | ExtractOutcome.failure => { s with error := extractFailMsg, loading := false }
  | ExtractOutcome.success pages =>
      { s with extractedText := fullTextOfPages pages, loading := false }

/-- `handleFileChange` (lines 21-66) as a state transition.  The second
component records whether the extraction pipeline was started
(`reader.readAsArrayBuffer` reached): it is `false` exactly on the
rejecting branch. -/
def handleFileChange (s : AppState) (file : Option File) (eo : ExtractOutcome) :
    AppState × Bool :=
  match file with
  | some f =>
      if f.type = "application/pdf" then (applyExtraction (acceptPdf s f) eo, true)
      else (rejectFile s, false)
  | none => (rejectFile s, false)

/-- The truthy `result.error.message` of line 115: present and non-empty
(an empty string is falsy in JavaScript). -/
def errMessage (result : GeminiResult) : Option String :=
  match result.error with
  | some e =>
      match e.message with
      | some m => if m = "" then none else some m
      | none => none
  | none => none

/-- The truthy `result.promptFeedback.blockReason` of line 117: present and
non-empty. -/
def blockReasonOf (result : GeminiResult) : Option String :=
  match result.promptFeedback with
  | some pf =>
      match pf.blockReason with
      | some b => if b = "" then none else some b
      | none => none
  | none => none

/-- The chained success-shape probe of lines 108-111: candidates present and
non-empty, first candidate has a content, content has a non-empty parts
list; yields `candidates[0].content.parts[0].text`. -/
def firstPartText (result : GeminiResult) : Option String :=
  match result.candidates with
  | some (c :: _) =>
      match c.content with
      | some content =>
          match content.parts with
          | some (p :: _) => some p.text
          | some [] => none
          | none => none
      | none => none
  | some [] => none
  | none => none

/-- The error classification of lines 114-124, in priority order:
explicit API error message, then safety-block reason, then empty candidate
list, then the generic unexpected-shape message. -/
def classifyError (result : GeminiResult) : String :=
  match errMessage result with
  | some m => "API Error: " ++ m
  | none =>
      match blockReasonOf result with
      | some b =>
          "Summary blocked due to: " ++ b ++ ". Content might violate safety policies."
      | none =>
          match result.candidates with
          | some [] => noCandidatesMsg
          | _ => unexpectedShapeMsg

/-- The prompt of line 91: the fixed instruction template followed by the
extracted text. -/
def mkPrompt (text : String) : String := "Summarize the following text:\n\n" ++ text

/-- `summarizeText` (lines 72-133) as a state transition.  The second
component is the prompt sent over the network, or `none` when the guards
return before `fetch` is called.  The two guards (lines 73-83) only set the
error; past them, lines 85-87 set loading and clear summary and error, the
fetch outcome is dispatched as in lines 108-129, and the `finally` block
(line 131) clears loading on every path. -/
def summarizeRun (s : AppState) (fetch : FetchOutcome) : AppState × Option String :=
  if s.extractedText = "" then
    ({ s with error := noTextMsg }, none)
  else if s.extractedText.length > 50000 then
    ({ s with error := tooLongMsg }, none)
  else
    let s1 : AppState := { s with loading := true, summary := "", error := "" }
    let s2 : AppState :=
      match fetch with
      | FetchOutcome.thrown => { s1 with error := networkErrMsg }
      | FetchOutcome.response ok result =>
          if ok then
            match firstPartText result with
            | some text => { s1 with summary := text }
            | none => { s1 with error := classifyError result }
          else { s1 with error := classifyError result }
    ({ s2 with loading := false }, some (mkPrompt s.extractedText))

/-- The initial state of the component: no file, empty strings, not
loading. -/
def initState : AppState :=
  { pdfFile := none, extractedText := "", summary := "", loading := false, error := "" }

/-- `String.join` distributes over cons. -/
theorem join_cons (x : String) (xs : List String) :
    String.join (x :: xs) = x ++ String.join xs := by
  apply String.ext
  simp [String.join_eq, String.data_append]

/-- The accumulator form of the extraction loop equals the seed followed by
the join of the per-page strings. -/
theorem foldl_pages_eq (l : List (List String)) (a : String) :
    l.foldl (fun acc frags => acc ++ joinPage frags ++ "\n") a
      = a ++ String.join (l.map (fun frags => joinPage frags ++ "\n")) := by
  induction l generalizing a with
  | nil => rw [List.foldl_nil, List.map_nil, show String.join [] = "" from rfl,
      String.append_empty]
  | cons frags rest ih =>
      rw [List.foldl_cons, List.map_cons, ih, join_cons]
      simp [String.append_assoc]

/-- C1: for a selected PDF file whose extractor yields, per page in
increasing order, the fragment lists `pages`, the stored extracted text is
the concatenation in page order of each page fragment list joined by single
spaces and followed by a line break. -/
theorem extractedText_is_page_concat (s : AppState) (f : File)
    (pages : List (List String)) (hpdf : f.type = "application/pdf") :
    (handleFileChange s (some f) (ExtractOutcome.success pages)).1.extractedText
      = String.join (pages.map (fun frags => String.intercalate " " frags ++ "\n")) := by
  have h : fullTextOfPages pages
      = String.join (pages.map (fun frags => String.intercalate " " frags ++ "\n")) := by
    unfold fullTextOfPages
    rw [foldl_pages_eq]
    simp [joinPage, String.empty_append]
  simp [handleFileChange, hpdf, applyExtraction, acceptPdf, h]

/-- Witness for C1: the spec scenario, a 2-page document with fragments
["Hello","world"] and ["Bye"]. -/
theorem extractedText_is_page_concat_witness :
    (handleFileChange initState (some { name := "doc.pdf", type := "application/pdf" })
        (ExtractOutcome.success [["Hello", "world"], ["Bye"]])).1.extractedText
      = "Hello world\nBye\n" :=
  (extractedText_is_page_concat initState
      { name := "doc.pdf", type := "application/pdf" }
      [["Hello", "world"], ["Bye"]] rfl).trans (by decide)

/-- C2: every completed extraction attempt, whatever its outcome, leaves
`loading` false; every summarization attempt invoked from a non-busy state
leaves `loading` false whatever its outcome (the guard returns leave it
untouched, the `finally` block clears it otherwise). -/
theorem loading_false_after_attempt (s : AppState) (f : File)
    (eo : ExtractOutcome) (fo : FetchOutcome)
    (hpdf : f.type = "application/pdf") :
    (handleFileChange s (some f) eo).1.loading = false ∧
      (s.extractedText ≠ "" → s.extractedText.length ≤ 50000 →
        (summarizeRun s fo).1.loading = false) ∧
      (s.loading = false → (summarizeRun s fo).1.loading = false) := by
  refine ⟨?_, ?_, ?_⟩
  · cases eo <;> simp [handleFileChange, hpdf, applyExtraction, acceptPdf]
  · intro h1 hle
    have h2 : ¬ s.extractedText.length > 50000 := Nat.not_lt.mpr hle
    cases fo <;> simp [summarizeRun, h1, h2]
  · intro hload
    by_cases h1 : s.extractedText = ""
    · simp [summarizeRun, h1, hload]
    · by_cases h2 : s.extractedText.length > 50000
      · simp [summarizeRun, h1, h2, hload]
      · cases fo <;> simp [summarizeRun, h1, h2]

/-- Witness for C2 at a concrete state, extraction failure and thrown fetch. -/
theorem loading_false_after_attempt_witness :
    (handleFileChange initState (some { name := "d.pdf", type := "application/pdf" })
        ExtractOutcome.failure).1.loading = false ∧
      (summarizeRun { initState with extractedText := "doc" } FetchOutcome.thrown).1.loading
        = false := by
  have h1 := loading_false_after_attempt initState
    { name := "d.pdf", type := "application/pdf" } ExtractOutcome.failure FetchOutcome.thrown rfl
  have h2 := loading_false_after_attempt { initState with extractedText := "doc" }
    { name := "d.pdf", type := "application/pdf" } ExtractOutcome.failure FetchOutcome.thrown rfl
  exact ⟨h1.1, h2.2.1 (by decide) (by decide)⟩

/-- C3: with empty extracted text, or with extracted text longer than the
maximum, `summarizeText` makes no network call (second component `none`)
and only sets the corresponding fixed error message. -/
theorem guards_block_network (s : AppState) (fo : FetchOutcome) :
    (s.extractedText = "" →
        summarizeRun s fo = ({ s with error := noTextMsg }, none)) ∧
    (s.extractedText.length > 50000 →
        summarizeRun s fo = ({ s with error := tooLongMsg }, none)) := by
  constructor
  · intro h
    simp [summarizeRun, h]
  · intro h
    have hne : s.extractedText ≠ "" := by
      intro he
      rw [he] at h
      exact absurd h (by decide)
    simp [summarizeRun, hne, h]

/-- Witness for C3: the empty-text guard at the initial state and the
length guard at a 50,001-character text. -/
theorem guards_block_network_witness :
    summarizeRun initState FetchOutcome.thrown
      = ({ initState with error := noTextMsg }, none) ∧
    summarizeRun { initState with extractedText := String.mk (List.replicate 50001 'a') }
        FetchOutcome.thrown
      = ({ initState with extractedText := String.mk (List.replicate 50001 'a'), error := tooLongMsg }, none) := by
  constructor
  · exact (guards_block_network initState FetchOutcome.thrown).1 rfl
  · exact (guards_block_network
        { initState with extractedText := String.mk (List.replicate 50001 'a') }
        FetchOutcome.thrown).2
      (by show (List.replicate 50001 'a').length > 50000
          rw [List.length_replicate]
          decide)

/-- C4: an ok response whose body has a first candidate with content and a
non-empty parts list stores `candidates[0].content.parts[0].text` as the
summary, and the error is empty afterwards. -/
theorem success_sets_summary (s : AppState) (result : GeminiResult)
    (c : Candidate) (cs : List Candidate) (ct : Content) (p : Part) (ps : List Part)
    (hne : s.extractedText ≠ "") (hlen : ¬ s.extractedText.length > 50000)
    (hca : result.candidates = some (c :: cs)) (hct : c.content = some ct)
    (hps : ct.parts = some (p :: ps)) :
    (summarizeRun s (FetchOutcome.response true result)).1.summary = p.text ∧
      (summarizeRun s (FetchOutcome.response true result)).1.error = "" := by
  have hfp : firstPartText result = some p.text := by
    simp [firstPartText, hca, hct, hps]
  constructor <;> simp [summarizeRun, hne, hlen, hfp]

/-- Witness for C4: a single candidate carrying the text from the spec
scenario. -/
theorem success_sets_summary_witness :
    (summarizeRun { initState with extractedText := "doc body" }
        (FetchOutcome.response true
          { candidates := some [{ content := some { parts := some [{ text := "A short summary." }] } }],
            error := none, promptFeedback := none })).1.summary = "A short summary." ∧
      (summarizeRun { initState with extractedText := "doc body" }
        (FetchOutcome.response true
          { candidates := some [{ content := some { parts := some [{ text := "A short summary." }] } }],
            error := none, promptFeedback := none })).1.error = "" :=
  success_sets_summary { initState with extractedText := "doc body" }
    { candidates := some [{ content := some { parts := some [{ text := "A short summary." }] } }],
      error := none, promptFeedback := none }
    { content := some { parts := some [{ text := "A short summary." }] } } []
    { parts := some [{ text := "A short summary." }] } { text := "A short summary." } []
    (by decide) (by decide) rfl rfl rfl

/-- C5: on any non-successful outcome the summary ends empty and the error
is chosen in priority order: a truthy explicit error message is surfaced
first, then a truthy safety-block reason, then the empty-candidate-list
message, then the generic unexpected-shape message; a thrown or rejected
fetch yields the fixed connectivity message. -/
theorem failure_error_priority (s : AppState) (ok : Bool) (result : GeminiResult)
    (hne : s.extractedText ≠ "") (hlen : ¬ s.extractedText.length > 50000)
    (hfail : ok = false ∨ firstPartText result = none) :
    ((summarizeRun s (FetchOutcome.response ok result)).1.summary = "" ∧
     (∀ m, errMessage result = some m →
        (summarizeRun s (FetchOutcome.response ok result)).1.error = "API Error: " ++ m) ∧
     (errMessage result = none → ∀ b, blockReasonOf result = some b →
        (summarizeRun s (FetchOutcome.response ok result)).1.error
          = "Summary blocked due to: " ++ b ++ ". Content might violate safety policies.") ∧
     (errMessage result = none → blockReasonOf result = none →
        result.candidates = some [] →
        (summarizeRun s (FetchOutcome.response ok result)).1.error = noCandidatesMsg) ∧
     (errMessage result = none → blockReasonOf result = none →
        (∀ l, result.candidates = some l → l ≠ []) →
        (summarizeRun s (FetchOutcome.response ok result)).1.error = unexpectedShapeMsg)) ∧
    ((summarizeRun s FetchOutcome.thrown).1.summary = "" ∧
     (summarizeRun s FetchOutcome.thrown).1.error = networkErrMsg) := by
  have key : (summarizeRun s (FetchOutcome.response ok result)).1
      = { s with loading := false, summary := "", error := classifyError result } := by
    cases ok with
    | false => simp [summarizeRun, hne, hlen]
    | true =>
        have h : firstPartText result = none := by
          rcases hfail with h | h
          · exact absurd h (by simp)
          · exact h
        simp [summarizeRun, hne, hlen, h]
  refine ⟨⟨?_, ?_, ?_, ?_, ?_⟩, ?_, ?_⟩
  · rw [key]
  · intro m hm
    rw [key]
    simp [classifyError, hm]
  · intro h1 b hb
    rw [key]
    simp [classifyError, h1, hb]
  · intro h1 h2 hc
    rw [key]
    simp [classifyError, h1, h2, hc]
  · intro h1 h2 hc
    rw [key]
    rcases hcand : result.candidates with _ | l
    · simp [classifyError, h1, h2, hcand]
    · cases l with
      | nil => exact absurd rfl (hc [] hcand)
      | cons c cl => simp [classifyError, h1, h2, hcand]
  · simp [summarizeRun, hne, hlen]
  · simp [summarizeRun, hne, hlen]

/-- Witness for C5: an explicit API error message is surfaced with the
prefixed format and the summary ends empty. -/
theorem failure_error_priority_witness :
    (summarizeRun { initState with extractedText := "doc" }
        (FetchOutcome.response true
          { candidates := none, error := some { message := some "quota exceeded" },
            promptFeedback := none })).1.error = "API Error: quota exceeded" ∧
      (summarizeRun { initState with extractedText := "doc" }
        (FetchOutcome.response true
          { candidates := none, error := some { message := some "quota exceeded" },
            promptFeedback := none })).1.summary = "" := by
  have h := failure_error_priority { initState with extractedText := "doc" } true
      { candidates := none, error := some { message := some "quota exceeded" },
        promptFeedback := none }
      (by decide) (by decide) (Or.inr rfl)
  exact ⟨(h.1.2.1 "quota exceeded" (by decide)).trans (by decide), h.1.1⟩

/-- C6: selecting a file whose declared media type is not PDF drops the
handle, clears extracted text and summary, sets the fixed non-empty error
message, and never starts the extraction pipeline (second component
`false`), for every extractor outcome. -/
theorem nonPdf_rejected (s : AppState) (f : File) (eo : ExtractOutcome)
    (h : f.type ≠ "application/pdf") :
    handleFileChange s (some f) eo
      = ({ s with pdfFile := none, extractedText := "", summary := "", error := invalidPdfMsg },
          false) ∧
      invalidPdfMsg ≠ "" := by
  constructor
  · simp [handleFileChange, h, rejectFile]
  · decide

/-- Witness for C6 at a plain-text file. -/
theorem nonPdf_rejected_witness :
    handleFileChange initState (some { name := "notes.txt", type := "text/plain" })
        ExtractOutcome.failure
      = ({ initState with pdfFile := none, extractedText := "", summary := "", error := invalidPdfMsg }, false) ∧
      invalidPdfMsg ≠ "" :=
  nonPdf_rejected initState { name := "notes.txt", type := "text/plain" }
    ExtractOutcome.failure (by decide)

/-- C7: a PDF-typed selection first moves to the accepting state — handle
stored, extracted text, summary and error cleared, loading set — and the
extraction outcome is applied to exactly that state. -/
theorem pdf_accept_clears_before_extraction (s : AppState) (f : File)
    (eo : ExtractOutcome) (h : f.type = "application/pdf") :
    (handleFileChange s (some f) eo).1 = applyExtraction (acceptPdf s f) eo ∧
      (acceptPdf s f).extractedText = "" ∧ (acceptPdf s f).summary = "" ∧
      (acceptPdf s f).error = "" ∧ (acceptPdf s f).loading = true ∧
      (acceptPdf s f).pdfFile = some f := by
  simp [handleFileChange, h, acceptPdf]

/-- Witness for C7 from a dirty prior state. -/
theorem pdf_accept_clears_before_extraction_witness :
    (handleFileChange { initState with extractedText := "old", summary := "olds", error := "olde" }
        (some { name := "doc.pdf", type := "application/pdf" }) ExtractOutcome.failure).1
      = applyExtraction
          (acceptPdf { initState with extractedText := "old", summary := "olds", error := "olde" }
            { name := "doc.pdf", type := "application/pdf" }) ExtractOutcome.failure ∧
      (acceptPdf { initState with extractedText := "old", summary := "olds", error := "olde" }
          { name := "doc.pdf", type := "application/pdf" }).extractedText = "" ∧
      (acceptPdf { initState with extractedText := "old", summary := "olds", error := "olde" }
          { name := "doc.pdf", type := "application/pdf" }).summary = "" ∧
      (acceptPdf { initState with extractedText := "old", summary := "olds", error := "olde" }
          { name := "doc.pdf", type := "application/pdf" }).error = "" ∧
      (acceptPdf { initState with extractedText := "old", summary := "olds", error := "olde" }
          { name := "doc.pdf", type := "application/pdf" }).loading = true ∧
      (acceptPdf { initState with extractedText := "old", summary := "olds", error := "olde" }
          { name := "doc.pdf", type := "application/pdf" }).pdfFile
        = some { name := "doc.pdf", type := "application/pdf" } :=
  pdf_accept_clears_before_extraction
    { initState with extractedText := "old", summary := "olds", error := "olde" }
    { name := "doc.pdf", type := "application/pdf" } ExtractOutcome.failure rfl

/-- C9: when the extractor library is absent the attempt ends with the
fixed non-empty configuration-error message, loading false, extracted text
still empty; the transition is total, so no exception escapes, and nothing
re-attempts the extraction. -/
theorem libMissing_config_error (s : AppState) (f : File)
    (h : f.type = "application/pdf") :
    (handleFileChange s (some f) ExtractOutcome.libMissing).1
      = { s with pdfFile := some f, extractedText := "", summary := "", error := pdfjsMissingMsg, loading := false } ∧
      pdfjsMissingMsg ≠ "" := by
  constructor
  · simp [handleFileChange, h, applyExtraction, acceptPdf]
  · decide

/-- Witness for C9. -/
theorem libMissing_config_error_witness :
    (handleFileChange initState (some { name := "doc.pdf", type := "application/pdf" })
        ExtractOutcome.libMissing).1
      = { initState with pdfFile := some { name := "doc.pdf", type := "application/pdf" }, extractedText := "", summary := "", error := pdfjsMissingMsg, loading := false } ∧
      pdfjsMissingMsg ≠ "" :=
  libMissing_config_error initState { name := "doc.pdf", type := "application/pdf" } rfl

/-- C10: the length guard is a strict comparison against 50,000: at length
exactly 50,000 the fetch is performed (a prompt is sent), and any strictly
greater length is rejected with the fixed too-long message and no call. -/
theorem length_guard_strict (s : AppState) (fo : FetchOutcome) :
    (s.extractedText.length = 50000 →
        (summarizeRun s fo).2 = some (mkPrompt s.extractedText)) ∧
    (s.extractedText.length > 50000 →
        summarizeRun s fo = ({ s with error := tooLongMsg }, none)) := by
  constructor
  · intro h
    have hne : s.extractedText ≠ "" := by
      intro he
      rw [he] at h
      exact absurd h (by decide)
    have hgt : ¬ s.extractedText.length > 50000 := by
      rw [h]
      decide
    simp [summarizeRun, hne, hgt]
  · intro h
    have hne : s.extractedText ≠ "" := by
      intro he
      rw [he] at h
      exact absurd h (by decide)
    simp [summarizeRun, hne, h]

/-- Witness for C10: a 50,000-character text goes to the network, a
50,001-character text is rejected. -/
theorem length_guard_strict_witness :
    (summarizeRun { initState with extractedText := String.mk (List.replicate 50000 'a') }
        FetchOutcome.thrown).2
      = some (mkPrompt (String.mk (List.replicate 50000 'a'))) ∧
    summarizeRun { initState with extractedText := String.mk (List.replicate 50001 'a') }
        FetchOutcome.thrown
      = ({ initState with extractedText := String.mk (List.replicate 50001 'a'), error := tooLongMsg }, none) := by
  constructor
  · exact (length_guard_strict
        { initState with extractedText := String.mk (List.replicate 50000 'a') }
        FetchOutcome.thrown).1
      (by show (List.replicate 50000 'a').length = 50000
          rw [List.length_replicate])
  · exact (length_guard_strict
        { initState with extractedText := String.mk (List.replicate 50001 'a') }
        FetchOutcome.thrown).2
      (by show (List.replicate 50001 'a').length > 50000
          rw [List.length_replicate]
          decide)

/-- Counterexample to C8 as stated: a guard-failing attempt does not clear
the previous summary — with empty extracted text and a stale summary, the
summary is still non-empty after the attempt. -/
theorem summary_cleared_cex :
    ¬ ((summarizeRun { initState with summary := "stale summary" }
        FetchOutcome.thrown).1.summary = "") := by
  decide

/-- C8 (amended): at the start of every summarization attempt that passes
the precondition guards, the previous summary and error are cleared — the
attempt behaves exactly as from a state with empty summary and error — and
the final summary is empty unless the response was success-shaped, in which
case it is the extracted candidate text. Guard-failing attempts leave the
summary untouched and overwrite the error with the guard message. -/
theorem summary_cleared_amended (s : AppState) (fo : FetchOutcome)
    (hne : s.extractedText ≠ "") (hlen : ¬ s.extractedText.length > 50000) :
    summarizeRun s fo = summarizeRun { s with summary := "", error := "" } fo ∧
    ((summarizeRun s fo).1.summary = "" ∨
      ∃ result, fo = FetchOutcome.response true result ∧
        firstPartText result = some ((summarizeRun s fo).1.summary)) := by
  constructor
  · simp [summarizeRun, hne, hlen]
  · cases fo with
    | thrown => exact Or.inl (by simp [summarizeRun, hne, hlen])
    | response ok result =>
        cases ok with
        | false => exact Or.inl (by simp [summarizeRun, hne, hlen])
        | true =>
            rcases hfp : firstPartText result with _ | t
            · exact Or.inl (by simp [summarizeRun, hne, hlen, hfp])
            · exact Or.inr ⟨result, rfl, by simp [summarizeRun, hne, hlen, hfp]⟩

/-- Witness for the amended C8: from a state with a stale summary and
error, a guard-passing attempt behaves as from the cleaned state. -/
theorem summary_cleared_amended_witness :
    summarizeRun { initState with extractedText := "doc", summary := "old", error := "olde" }
        FetchOutcome.thrown
      = summarizeRun { { initState with extractedText := "doc", summary := "old", error := "olde" } with summary := "", error := "" }
          FetchOutcome.thrown :=
  (summary_cleared_amended
      { initState with extractedText := "doc", summary := "old", error := "olde" }
      FetchOutcome.thrown (by decide) (by decide)).1

end PdfSummarizer
